import Mathlib

/-!
Shallow embedding of the `xmlcv` XML-to-HTML converter
(`src/xmlcv/element_processor.py`, `src/xmlcv/processors.py`,
`src/xmlcv/converter.py`) and proofs about its specification claims.

Modelling conventions:
* An XML element (`xml.etree.ElementTree.Element`) is a tree node carrying a
  tag, attributes, optional leading text, ordered children and optional tail
  text.  The extra `eid` field models CPython object identity: `Element` does
  not define `__eq__`, so Python's `==` / `in` on elements compares object
  identity, and a freshly parsed tree has pairwise distinct identities.
  Well-formedness of a parsed tree is the `Nodup` hypothesis on the `eid`s.
* Python string truthiness (`if s:`) is `optTruthy`; `str.strip()` is
  `pyStrip` (ASCII whitespace); `str.lower()` is `pyLower`; `x in s` on
  strings is `strContains`.  These are defined over character lists so that
  concrete instances evaluate inside the kernel.
* Stateful code is threaded explicitly: the advisory `element_stats` counter
  is passed as an explicit `Stats` value through the whole traversal.
-/

namespace Xmlcv

/-- Model of `xml.etree.ElementTree.Element`: `eid` models object identity. -/
inductive Elem where
  | mk (eid : Nat) (tag : String) (attrs : List (String × String))
       (text : Option String) (children : List Elem) (tail : Option String)
deriving Repr

def Elem.eid : Elem → Nat
  | .mk i _ _ _ _ _ => i

def Elem.tag : Elem → String
  | .mk _ t _ _ _ _ => t

def Elem.attrs : Elem → List (String × String)
  | .mk _ _ a _ _ _ => a

def Elem.text : Elem → Option String
  | .mk _ _ _ t _ _ => t

def Elem.children : Elem → List Elem
  | .mk _ _ _ _ c _ => c

def Elem.tail : Elem → Option String
  | .mk _ _ _ _ _ t => t

/-- Python truthiness of an optional string (`None` and `""` are falsy). -/
def optTruthy : Option String → Bool
  | some s => s ≠ ""
  | none => false

/-- The string value of an optional string, `""` for `None`. -/
def optStr : Option String → String
  | some s => s
  | none => ""

/-- ASCII whitespace, as stripped by Python's `str.strip()`. -/
def isPyWS (c : Char) : Bool :=
  c == ' ' || c == '\t' || c == '\n' || c == '\r' || c == '\x0b' || c == '\x0c'

/-- Python `str.strip()` (ASCII whitespace). -/
def pyStrip (s : String) : String :=
  ⟨((s.data.dropWhile isPyWS).reverse.dropWhile isPyWS).reverse⟩

/-- Python `str.lower()` (ASCII case folding suffices for the claims). -/
def pyLower (s : String) : String :=
  ⟨s.data.map Char.toLower⟩

/-- Helper for `strContains`: does `pat` occur in the haystack list? -/
def hasSubList (pat : List Char) : List Char → Bool
  | [] => pat.isEmpty
  | c :: t => pat.isPrefixOf (c :: t) || hasSubList pat t

/-- Python `pat in hay` on strings (substring containment). -/
def strContains (hay pat : String) : Bool :=
  hasSubList pat.data hay.data

/-- Python `" ".join(parts)`-style joining with a separator. -/
def joinSep (sep : String) : List String → String
  | [] => ""
  | [x] => x
  | x :: xs => x ++ sep ++ joinSep sep xs

/-- `element_processor.get_text`: the element's own leading text (stripped),
then for every direct child that child's text (stripped) and tail (stripped);
a fragment is appended whenever the raw value is truthy (non-empty), even if
stripping empties it; all fragments joined by `" "`. -/
def get_text : Option Elem → String
  | none => ""
  | some e =>
    let own := if optTruthy e.text then [pyStrip (optStr e.text)] else []
    let rest := e.children.foldr
      (fun c acc =>
        (if optTruthy c.text then [pyStrip (optStr c.text)] else []) ++
        (if optTruthy c.tail then [pyStrip (optStr c.tail)] else []) ++ acc) []
    joinSep " " (own ++ rest)

/-- `html.escape` on one character (quote=True: escapes `&<>"'`). -/
def escapeChar (c : Char) : String :=
  if c = '&' then "&amp;"
  else if c = '<' then "&lt;"
  else if c = '>' then "&gt;"
  else if c = '"' then "&quot;"
  else if c = '\'' then "&#x27;"
  else String.singleton c

/-- `element_processor.escape_html` (= `html.escape`). -/
def escape_html (s : String) : String :=
  String.join (s.data.map escapeChar)

/-- Characters after the first occurrence of `sep`, if any. -/
def afterFirst (sep : Char) : List Char → Option (List Char)
  | [] => none
  | c :: t => if c == sep then some t else afterFirst sep t

/-- `ElementProcessor._clean_tag`: when namespace stripping is on and the tag
contains `}`, return `tag.split('}')[1]` (the piece between the first and the
second `}`), else the tag unchanged. -/
def clean_tag (stripNS : Bool) (tag : String) : String :=
  match stripNS, afterFirst '}' tag.data with
  | true, some r => ⟨r.takeWhile (fun c => c != '}')⟩
  | _, _ => tag

/-- `element.get(key, default)`: attribute lookup. -/
def Elem.getAttr (e : Elem) (key dflt : String) : String :=
  match e.attrs.find? (fun p => p.fst == key) with
  | some p => p.snd
  | none => dflt

/-- `element.findall('Tag')`: direct children with the given raw tag. -/
def ch (t : String) (e : Elem) : List Elem :=
  e.children.filter (fun c => c.tag == t)

/-- `element.find('Tag')`: first direct child with the given raw tag. -/
def fnd (t : String) (e : Elem) : Option Elem :=
  (ch t e).head?

/-- `element.findall('A/B')`: children tagged `A`, then their children
tagged `B`, in document order. -/
def path2 (a b : String) (e : Elem) : List Elem :=
  (ch a e).flatMap (ch b)

mutual
/-- All proper descendants of an element in document (preorder) order;
`element.findall('.//X')` filters this list by tag. -/
def descendants : Elem → List Elem
  | .mk _ _ _ _ children _ => descList children

def descList : List Elem → List Elem
  | [] => []
  | c :: cs => c :: (descendants c ++ descList cs)
end

/-- `element.iter()`: the element itself followed by its descendants. -/
def iterAll (e : Elem) : List Elem :=
  e :: descendants e

/-- The object identities occurring in a tree, in document order. -/
def eidsOf (e : Elem) : List Nat :=
  (iterAll e).map Elem.eid

/-! ## Processor registry (`ElementProcessor`) -/

/-- The names of the processors of `processors.get_all_processors`; the
registry maps tag strings to these (a defunctionalised function table). -/
inductive ProcName where
  | document | documentTitle | enactStatement | toc | chapter | sect
  | subsection | article | paragraph | sentence | item | subitem1
  | tableStruct | supplProvision | appdxTable
deriving DecidableEq, Repr

abbrev Registry := List (String × ProcName)

/-- Result of `ElementProcessor.get_processor`: a registered processor or the
bound `_default_processor` method (there is no null/failure case). -/
inductive Resolved where
  | named (p : ProcName)
  | fallback
deriving DecidableEq, Repr

/-- `ElementProcessor.get_processor`: the registered processor if present,
else the default processor. -/
def get_processor (R : Registry) (name : String) : Resolved :=
  match R.find? (fun q => q.fst == name) with
  | some q => .named q.snd
  | none => .fallback

/-- `ElementProcessor.register_processor`: insert or overwrite. -/
def register_processor (R : Registry) (name : String) (p : ProcName) : Registry :=
  (R.filter (fun q => q.fst != name)) ++ [(name, p)]

/-- `processors.get_all_processors`: the default registry the converter
installs. -/
def get_all_processors : Registry :=
  [("Document", .document), ("DocumentTitle", .documentTitle),
   ("EnactStatement", .enactStatement), ("TOC", .toc), ("Chapter", .chapter),
   ("Section", .sect), ("Subsection", .subsection), ("Article", .article),
   ("Paragraph", .paragraph), ("Sentence", .sentence), ("Item", .item),
   ("Subitem1", .subitem1), ("TableStruct", .tableStruct),
   ("SupplProvision", .supplProvision), ("AppdxTable", .appdxTable)]

/-- `ElementProcessor.element_stats`: the advisory visit counter
(`defaultdict(int)`), threaded explicitly. -/
abbrev Stats := List (String × Nat)

/-- `self.element_stats[tag] += 1`. -/
def bump (s : Stats) (tag : String) : Stats :=
  if s.any (fun q => q.fst == tag) then
    s.map (fun q => if q.fst == tag then (q.fst, q.snd + 1) else q)
  else s ++ [(tag, 1)]

/-! ## Non-recursive processors (`processors.py`) -/

def sentenceSpanOpen : String :=
  "<span class=\"sentence\" style=\"margin: 10px 0; text-indent: 1em;\">"

/-- The `Ruby`/`Sub` fragment one child contributes inside
`process_sentence`'s annotated branch. -/
def rubyPart (c : Elem) : String :=
  if c.tag == "Ruby" then
    match fnd "Rt" c with
    | some rt =>
      "<ruby>" ++ escape_html (optStr c.text) ++ "<rt>" ++
        escape_html (get_text (some rt)) ++ "</rt></ruby>"
    | none => ""
  else if c.tag == "Sub" then
    "<sub>" ++ escape_html (get_text (some c)) ++ "</sub>"
  else ""

/-- `processors.process_sentence`. -/
def process_sentence (e : Elem) : String :=
  if !(ch "Ruby" e).isEmpty || !(ch "Sub" e).isEmpty then
    sentenceSpanOpen
    ++ (if optTruthy e.text then escape_html (optStr e.text) else "")
    ++ String.join (e.children.map (fun c =>
         rubyPart c ++ (if optTruthy c.tail then escape_html (optStr c.tail) else "")))
    ++ "</span>"
  else
    let text := get_text (some e)
    let text := if text == "" || pyStrip text == "" then "\u00A0" else text
    sentenceSpanOpen ++ escape_html text ++ "</span>"

/-- `processors.process_document_title`. -/
def process_document_title (e : Elem) : String :=
  let text := get_text (some e)
  if text != "" then
    "<div class=\"document-title\">" ++ escape_html text ++ "</div>"
  else ""

/-- `processors.process_enact_statement`. -/
def process_enact_statement (e : Elem) : String :=
  let text := get_text (some e)
  if text == "" then ""
  else
    "<div class=\"enact-statement\" style=\"background: #fff3cd; padding: 20px; border-left: 4px solid #ffc107; margin: 20px 0; border-radius: 4px;\"><p style=\"margin: 0; line-height: 1.8;\">"
    ++ escape_html text ++ "</p></div>"

/-- `processors.process_toc` (fully non-recursive string building). -/
def process_toc (e : Elem) : String :=
  let tocLabel := get_text (fnd "TOCLabel" e)
  let base := "<div class=\"toc\" style=\"background: #f8f9fa; padding: 20px; border-radius: 5px; margin: 30px 0;\">"
  let base := base ++
    (if tocLabel != "" then
      "<div class=\"toc-title\" style=\"font-size: 1.3em; font-weight: bold; margin-bottom: 15px; color: #2c3e50;\">"
      ++ escape_html tocLabel ++ "</div>"
     else "")
  let chapters := ((descendants e).filter (fun c => c.tag == "TOCChapter")).map (fun chap =>
    let chTitle := get_text (fnd "ChapterTitle" chap)
    let chNum := chap.getAttr "Num" ""
    let aRange := get_text (fnd "ArticleRange" chap)
    "<div class=\"toc-chapter\" style=\"margin: 10px 0; padding-left: 20px;\">"
    ++ "<a href=\"#chapter-" ++ chNum ++ "\" class=\"nav-link\">" ++ escape_html chTitle ++ "</a>"
    ++ (if aRange != "" then " <span style=\"color: #666;\">" ++ escape_html aRange ++ "</span>" else "")
    ++ "</div>"
    ++ String.join ((ch "TOCSection" chap).map (fun sec =>
         let sTitle := get_text (fnd "SectionTitle" sec)
         let sNum := sec.getAttr "Num" ""
         let sRange := get_text (fnd "ArticleRange" sec)
         "<div class=\"toc-section\" style=\"margin: 5px 0; padding-left: 40px; color: #555;\">"
         ++ "<a href=\"#section-" ++ sNum ++ "\" class=\"nav-link\">" ++ escape_html sTitle ++ "</a>"
         ++ (if sRange != "" then " <span style=\"color: #666;\">" ++ escape_html sRange ++ "</span>" else "")
         ++ "</div>")))
  let base := base ++ String.join chapters
  let base := base ++
    (match fnd "TOCSupplProvision" e with
     | some suppl =>
       let l := get_text (fnd "SupplProvisionLabel" suppl)
       if l != "" then "<div class=\"toc-chapter\"><strong>" ++ escape_html l ++ "</strong></div>" else ""
     | none => "")
  base ++ "</div>"

/-- `element.findall('.//*[Tag]')`: descendants with a child tagged `Tag`. -/
def withChildTagged (t : String) (e : Elem) : List Elem :=
  (descendants e).filter (fun d => !(ch t d).isEmpty)

/-- Python `xs or ys` on lists: `ys` when `xs` is empty. -/
def orElseL (l fallback : List Elem) : List Elem :=
  if l.isEmpty then fallback else l

/-- `ElementProcessor._process_table_like` (the default `Table` rule). -/
def process_table_like (e : Elem) : String :=
  "<table class=\"table\">"
  ++ String.join ((orElseL (withChildTagged "Row" e) e.children).map (fun row =>
       "<tr>"
       ++ String.join ((orElseL (withChildTagged "Column" row) row.children).map (fun col =>
            "<td>" ++ escape_html (get_text (some col)) ++ "</td>"))
       ++ "</tr>"))
  ++ "</table>"

/-- The `Style` loop of `processors.process_article`. -/
def articleStyles (e : Elem) : String :=
  String.join ((ch "Style" e).map (fun st =>
    let t := get_text (some st)
    if t != "" then
      "<div class=\"style\" style=\"margin: 10px 0; padding: 10px; background: #e8f5e9; border-left: 3px solid #4caf50; border-radius: 3px;\">"
      ++ escape_html t ++ "</div>"
    else ""))

/-! ## Paragraph sentence discovery (`processors.process_paragraph`) -/

/-- The sentences found via the nested `ParagraphSentence/Sentence` path. -/
def paragraph_nested (e : Elem) : List Elem :=
  path2 "ParagraphSentence" "Sentence" e

/-- Python `x in list-of-elements`: membership by object identity. -/
def memEid (x : Elem) (l : List Elem) : Bool :=
  l.any (fun t => t.eid == x.eid)

/-- The direct `Sentence` children not skipped by the double-render guard. -/
def paragraph_direct_extra (e : Elem) : List Elem :=
  (ch "Sentence" e).filter (fun sn => !(memEid sn (paragraph_nested e)))

/-- All sentences `process_paragraph` renders, in rendering order. -/
def paragraph_rendered (e : Elem) : List Elem :=
  paragraph_nested e ++ paragraph_direct_extra e

/-! ## The recursive renderer

`run` interprets the mutually recursive rendering code with an explicit fuel
(the Python recursion has no static bound because `process_appdx_table`
re-dispatches a synthetic wrapper node), threading the advisory
`element_stats` counter.  `hp` says whether the rendering context carries the
`'processor'` back-reference (`context = {'processor': processor}` vs `{}`);
when it does, loops re-enter `ElementProcessor.process_element`, otherwise
they call the module-level processor functions directly, exactly as in
`processors.py`. -/

/-- The pending computations of the renderer (defunctionalised call sites). -/
inductive Call where
  | elem (e : Elem)                                       -- ElementProcessor.process_element
  | proc (p : ProcName) (e : Elem)                        -- a named processor applied to e
  | dflt (e : Elem)                                       -- ElementProcessor._default_processor
  | childrenOf (e : Elem)                                 -- ElementProcessor.process_children
  | dispatchList (es : List Elem)                         -- the loop inside process_children
  | each (p : ProcName) (es : List Elem)                  -- "for x in es: html += render(x)"
  | wrapEach (pre post : String) (p : ProcName) (es : List Elem)
  | supplParas (es : List Elem)                           -- paragraph loop of process_suppl_provision
  | itemCols (es : List Elem)                             -- Column loop of process_item
  | tableRows (es : List Elem)                            -- TableRow loop of process_table_struct
  | tableCols (es : List Elem)                            -- TableColumn loop of process_table_struct
  | colContent (e : Elem)                                 -- the shared three-tier cell content logic
  | subitem2s (es : List Elem)                            -- Subitem2 loop of process_subitem1
deriving Repr

def run (R : Registry) (hp : Bool) : Nat → Stats → Call → String × Stats
  | 0, s, _ => ("", s)
  | f+1, s, .elem e =>
    -- process_element: clean tag, bump the visit counter, resolve, invoke
    let tag := clean_tag true e.tag
    let s1 := bump s tag
    (match get_processor R tag with
     | .named p => run R hp f s1 (.proc p e)
     | .fallback => run R hp f s1 (.dflt e))
  | f+1, s, .childrenOf e => run R hp f s (.dispatchList e.children)
  | _+1, s, .dispatchList [] => ("", s)
  | f+1, s, .dispatchList (c :: cs) =>
    -- process_children: resolve each child's processor directly (no bump)
    let r := (match get_processor R (clean_tag true c.tag) with
              | .named p => run R hp f s (.proc p c)
              | .fallback => run R hp f s (.dflt c))
    let rest := run R hp f r.snd (.dispatchList cs)
    (r.fst ++ rest.fst, rest.snd)
  | _+1, s, .each _ [] => ("", s)
  | f+1, s, .each p (e :: es) =>
    let r := if hp then run R hp f s (.elem e) else run R hp f s (.proc p e)
    let rest := run R hp f r.snd (.each p es)
    (r.fst ++ rest.fst, rest.snd)
  | _+1, s, .wrapEach _ _ _ [] => ("", s)
  | f+1, s, .wrapEach pre post p (e :: es) =>
    let r := if hp then run R hp f s (.elem e) else run R hp f s (.proc p e)
    let rest := run R hp f r.snd (.wrapEach pre post p es)
    (pre ++ r.fst ++ post ++ rest.fst, rest.snd)
  | _+1, s, .supplParas [] => ("", s)
  | f+1, s, .supplParas (p1 :: ps) =>
    let caption := get_text (fnd "ParagraphCaption" p1)
    let r := if hp then run R hp f s (.elem p1) else run R hp f s (.proc .paragraph p1)
    let html := "<div class=\"paragraph-section\">"
      ++ (if caption != "" then "<div class=\"article-caption\">" ++ escape_html caption ++ "</div>" else "")
      ++ r.fst ++ "</div>"
    let rest := run R hp f r.snd (.supplParas ps)
    (html ++ rest.fst, rest.snd)
  | _+1, s, .itemCols [] => ("", s)
  | f+1, s, .itemCols (c :: cs) =>
    let r := run R hp f s (.colContent c)
    let cell := if pyStrip r.fst != "" then
        "<tr><td style=\"padding: 5px; border: 1px solid #ddd;\">" ++ r.fst ++ "</td></tr>"
      else ""
    let rest := run R hp f r.snd (.itemCols cs)
    (cell ++ rest.fst, rest.snd)
  | _+1, s, .tableRows [] => ("", s)
  | f+1, s, .tableRows (row :: rows) =>
    let r := run R hp f s (.tableCols (ch "TableColumn" row))
    let rest := run R hp f r.snd (.tableRows rows)
    ("<tr>" ++ r.fst ++ "</tr>" ++ rest.fst, rest.snd)
  | _+1, s, .tableCols [] => ("", s)
  | f+1, s, .tableCols (col :: cols) =>
    let bt := if col.getAttr "BorderTop" "" == "solid" then "1px solid #333" else "none"
    let bb := if col.getAttr "BorderBottom" "" == "solid" then "1px solid #333" else "none"
    let bl := if col.getAttr "BorderLeft" "" == "solid" then "1px solid #333" else "none"
    let br := if col.getAttr "BorderRight" "" == "solid" then "1px solid #333" else "none"
    let rowspan := col.getAttr "rowspan" ""
    let rowspanAttr := if rowspan != "" then " rowspan=\"" ++ rowspan ++ "\"" else ""
    let colspan := col.getAttr "colspan" ""
    let colspanAttr := if colspan != "" then " colspan=\"" ++ colspan ++ "\"" else ""
    let r := run R hp f s (.colContent col)
    let style := "border-top: " ++ bt ++ "; border-bottom: " ++ bb ++ "; border-left: " ++ bl
      ++ "; border-right: " ++ br ++ "; padding: 8px; vertical-align: top;"
    let rest := run R hp f r.snd (.tableCols cols)
    ("<td style=\"" ++ style ++ "\"" ++ rowspanAttr ++ colspanAttr ++ ">" ++ r.fst ++ "</td>"
      ++ rest.fst, rest.snd)
  | f+1, s, .colContent col =>
    -- three-tier cell content (identical in process_item and process_table_struct)
    let sil := ch "Sentence" col
    if !sil.isEmpty then
      run R hp f s (.each .sentence sil)
    else if hp then
      let r := run R hp f s (.childrenOf col)
      if pyStrip r.fst == "" then
        let t := get_text (some col)
        (if t != "" then escape_html t else r.fst, r.snd)
      else r
    else
      let t := get_text (some col)
      ((if t != "" then escape_html t else ""), s)
  | _+1, s, .subitem2s [] => ("", s)
  | f+1, s, .subitem2s (x :: xs) =>
    let t2 := get_text (fnd "Subitem2Title" x)
    let r := run R hp f s (.each .sentence (path2 "Subitem2Sentence" "Sentence" x))
    let html := "<div class=\"subitem2\" style=\"margin: 5px 0; padding-left: 20px;\">"
      ++ (if t2 != "" then "<span class=\"item-title\" style=\"color: #e67e22;\">" ++ escape_html t2 ++ "</span>" else "")
      ++ r.fst ++ "</div>"
    let rest := run R hp f r.snd (.subitem2s xs)
    (html ++ rest.fst, rest.snd)
  | f+1, s, .dflt e =>
    let tag := clean_tag true e.tag
    let text := get_text (some e)
    if strContains tag "Title" || strContains tag "Caption" then
      ("<div class=\"" ++ pyLower tag ++ "\">" ++ escape_html text ++ "</div>", s)
    else if strContains tag "Sentence" || strContains tag "Text" then
      ("<span class=\"" ++ pyLower tag ++ "\">" ++ escape_html text ++ "</span>", s)
    else if strContains tag "Item" || strContains tag "List" then
      ("<li class=\"" ++ pyLower tag ++ "\">" ++ escape_html text ++ "</li>", s)
    else if strContains tag "Table" then
      (process_table_like e, s)
    else
      let r := run R hp f s (.childrenOf e)
      ("<div class=\"" ++ pyLower tag ++ "\">" ++ r.fst ++ "</div>", r.snd)
  | f+1, s, .proc pn e =>
    match pn with
    | .document =>
      -- process_document: children only when the context carries a processor
      if hp then run R hp f s (.childrenOf e) else ("", s)
    | .documentTitle => (process_document_title e, s)
    | .enactStatement => (process_enact_statement e, s)
    | .toc => (process_toc e, s)
    | .chapter =>
      let title := get_text (fnd "ChapterTitle" e)
      let num := e.getAttr "Num" ""
      let r1 := run R hp f s (.each .sect (ch "Section" e))
      let r2 := run R hp f r1.snd (.each .article (ch "Article" e))
      ("<div class=\"chapter\" id=\"chapter-" ++ num
        ++ "\" style=\"margin: 40px 0; border-top: 2px solid #e0e0e0; padding-top: 20px;\">"
        ++ (if title != "" then
             "<div class=\"chapter-title\" style=\"font-size: 1.5em; font-weight: bold; color: #2c3e50; margin-bottom: 20px;\">"
             ++ escape_html title ++ "</div>"
            else "")
        ++ r1.fst ++ r2.fst ++ "</div>", r2.snd)
    | .sect =>
      let title := get_text (fnd "SectionTitle" e)
      let num := e.getAttr "Num" ""
      let r1 := run R hp f s (.each .subsection (ch "Subsection" e))
      let r2 := run R hp f r1.snd (.each .article (ch "Article" e))
      ("<div class=\"section\" id=\"section-" ++ num
        ++ "\" style=\"margin: 30px 0; padding-left: 20px;\">"
        ++ (if title != "" then
             "<div class=\"section-title\" style=\"font-size: 1.3em; font-weight: bold; color: #8e44ad; margin-bottom: 15px;\">"
             ++ escape_html title ++ "</div>"
            else "")
        ++ r1.fst ++ r2.fst ++ "</div>", r2.snd)
    | .subsection =>
      let title := get_text (fnd "SubsectionTitle" e)
      let r1 := run R hp f s (.each .article (ch "Article" e))
      ("<div class=\"subsection\" style=\"margin: 20px 0; padding-left: 30px;\">"
        ++ (if title != "" then
             "<div class=\"section-title\" style=\"font-size: 1.1em; color: #9b59b6;\">"
             ++ escape_html title ++ "</div>"
            else "")
        ++ r1.fst ++ "</div>", r1.snd)
    | .article =>
      let title := get_text (fnd "ArticleTitle" e)
      let caption := get_text (fnd "ArticleCaption" e)
      let num := e.getAttr "Num" ""
      let r1 := run R hp f s (.each .paragraph (ch "Paragraph" e))
      ("<div class=\"article\" id=\"article-" ++ num
        ++ "\" style=\"margin: 30px 0; padding: 20px; background: #fafafa; border-left: 4px solid #3498db; border-radius: 4px;\">"
        ++ (if caption != "" then
             "<div class=\"article-caption\" style=\"font-size: 0.9em; color: #7f8c8d; margin-bottom: 5px; font-style: italic;\">"
             ++ escape_html caption ++ "</div>"
            else "")
        ++ (if title != "" then
             "<div class=\"article-title\" style=\"font-size: 1.2em; font-weight: bold; color: #2980b9; margin-bottom: 10px;\">"
             ++ escape_html title ++ "</div>"
            else "")
        ++ r1.fst ++ articleStyles e ++ "</div>", r1.snd)
    | .paragraph =>
      let pnum := get_text (fnd "ParagraphNum" e)
      let r1 := run R hp f s (.each .sentence (paragraph_nested e))
      let r2 := run R hp f r1.snd (.each .sentence (paragraph_direct_extra e))
      let r3 := run R hp f r2.snd (.each .item (ch "Item" e))
      let r4 := run R hp f r3.snd (.wrapEach
        "<div class=\"list\" style=\"margin: 10px 0; padding-left: 20px; list-style-type: disc;\">"
        "</div>" .sentence ((ch "List" e).flatMap (path2 "ListSentence" "Sentence")))
      let r5 := run R hp f r4.snd (.each .tableStruct (ch "TableStruct" e))
      ("<div class=\"paragraph\" style=\"margin: 15px 0; padding-left: 20px;\">"
        ++ (if pnum != "" then
             "<span class=\"paragraph-num\" style=\"font-weight: bold; color: #34495e; margin-right: 10px;\">"
             ++ escape_html pnum ++ "</span>"
            else "")
        ++ r1.fst ++ r2.fst ++ r3.fst ++ r4.fst ++ r5.fst ++ "</div>", r5.snd)
    | .sentence => (process_sentence e, s)
    | .item =>
      let ititle := get_text (fnd "ItemTitle" e)
      let titleSpan := if ititle != "" then
          "<span class=\"item-title\" style=\"font-weight: bold; color: #27ae60; margin-right: 10px;\">"
          ++ escape_html ititle ++ "</span>"
        else ""
      let columns := match fnd "ItemSentence" e with
        | some isel => ch "Column" isel
        | none => []
      if !columns.isEmpty then
        let r := run R hp f s (.itemCols columns)
        ("<div class=\"item\" style=\"margin: 10px 0; padding-left: 30px;\">" ++ titleSpan
          ++ "<table style=\"margin: 10px 0; border-collapse: collapse; width: 100%;\">"
          ++ r.fst ++ "</table></div>", r.snd)
      else
        let r1 := run R hp f s (.each .sentence (path2 "ItemSentence" "Sentence" e))
        let r2 := run R hp f r1.snd (.each .subitem1 (ch "Subitem1" e))
        ("<div class=\"item\" style=\"margin: 10px 0; padding-left: 30px;\">" ++ titleSpan
          ++ r1.fst ++ r2.fst ++ "</div>", r2.snd)
    | .subitem1 =>
      let title := get_text (fnd "Subitem1Title" e)
      let r1 := run R hp f s (.each .sentence (path2 "Subitem1Sentence" "Sentence" e))
      let r2 := run R hp f r1.snd (.subitem2s (ch "Subitem2" e))
      ("<div class=\"subitem1\" style=\"margin: 8px 0; padding-left: 15px;\">"
        ++ (if title != "" then
             "<span class=\"item-title\" style=\"color: #d35400;\">" ++ escape_html title ++ "</span>"
            else "")
        ++ r1.fst ++ r2.fst ++ "</div>", r2.snd)
    | .tableStruct =>
      let title := get_text (fnd "TableStructTitle" e)
      (match fnd "Table" e with
       | none => ("", s)
       | some table =>
         let r := run R hp f s (.tableRows (ch "TableRow" table))
         ("<div class=\"table-wrapper\" style=\"margin: 20px 0; overflow-x: auto;\">"
           ++ (if title != "" then
                "<div class=\"article-caption\" style=\"margin-bottom: 10px; font-weight: bold;\">"
                ++ escape_html title ++ "</div>"
               else "")
           ++ "<table style=\"border-collapse: collapse; width: 100%; border: 1px solid #ddd;\">"
           ++ r.fst ++ "</table></div>", r.snd))
    | .supplProvision =>
      let label := get_text (fnd "SupplProvisionLabel" e)
      let a1 := e.getAttr "AmendLawNum" ""
      let amend := if a1 != "" then a1 else e.getAttr "AmendNum" ""
      let r1 := run R hp f s (.each .article (ch "Article" e))
      let r2 := run R hp f r1.snd (.supplParas (ch "Paragraph" e))
      ("<div class=\"chapter\" id=\"suppl-provision\" style=\"margin: 40px 0; border-top: 2px solid #e0e0e0; padding-top: 20px;\">"
        ++ (if label != "" then
             "<div class=\"chapter-title\" style=\"font-size: 1.5em; font-weight: bold; color: #2c3e50; margin-bottom: 20px;\">"
             ++ escape_html label ++ "</div>"
            else "")
        ++ (if amend != "" then
             "<div class=\"document-meta\" style=\"margin-bottom: 15px;\">" ++ escape_html amend ++ "</div>"
            else "")
        ++ r1.fst ++ r2.fst ++ "</div>", r2.snd)
    | .appdxTable =>
      let title := get_text (fnd "AppdxTableTitle" e)
      let rel := get_text (fnd "RelatedArticleNum" e)
      let r := (match fnd "TableStruct" e with
        | some ts => if hp then run R hp f s (.elem ts) else run R hp f s (.proc .tableStruct ts)
        | none =>
          match fnd "Table" e with
          | some table =>
            -- synthetic TableStruct wrapper around the bare Table child
            let temp := Elem.mk 0 "TableStruct" [] none [table] none
            if hp then run R hp f s (.elem temp) else run R hp f s (.proc .tableStruct temp)
          | none => ("", s))
      ("<div class=\"appdx-table\" style=\"margin: 30px 0; padding: 20px; background: #f8f9fa; border-radius: 5px;\">"
        ++ (if title != "" then
             "<div class=\"chapter-title\" style=\"margin-bottom: 10px;\">" ++ escape_html title ++ "</div>"
            else "")
        ++ (if rel != "" then
             "<div class=\"document-meta\" style=\"margin-bottom: 15px; font-style: italic;\">"
             ++ escape_html rel ++ "</div>"
            else "")
        ++ r.fst ++ "</div>", r.snd)

/-- `ElementProcessor.process_element` on one element. -/
def process_element (R : Registry) (hp : Bool) (f : Nat) (s : Stats) (e : Elem) :
    String × Stats :=
  run R hp f s (.elem e)

/-! ## Title inference (`XMLToHTMLConverter.convert_file`, tiers 1-4) -/

def tier1Tags : List String :=
  ["title", "name", "heading", "documenttitle", "book_title", "document_title"]

def placeholders : List String := ["title", "name", "heading"]

/-- Tier 1 candidate acceptance: trimmed text non-empty, shorter than 500
characters, and not itself a bare placeholder word. -/
def accept1 (e : Elem) : Bool :=
  let text := pyStrip (get_text (some e))
  text != "" && text.length < 500 && !(placeholders.contains (pyLower text))

/-- Tier 1: scan `root.iter()` for title-like tags with the full guard. -/
def tier1 (root : Elem) : Option String :=
  ((iterAll root).find? (fun e =>
    tier1Tags.contains (pyLower (clean_tag true e.tag)) && accept1 e)).map
    (fun e => pyStrip (get_text (some e)))

/-- The `title_patterns` list of tier 2 (each `.//Tag`, given here by tag). -/
def tier2Tags : List String :=
  ["title", "Title", "DocumentTitle", "book_title", "document_title",
   "doc_title", "name", "Name", "heading", "Heading"]

/-- Tiers 2 and 3 length guard: `text and len(text) > 0 and len(text) < 500`. -/
def guardLen (text : String) : Bool :=
  text != "" && text.length < 500

/-- Tier 2: the fixed pattern list, pattern-major order, first element whose
trimmed text passes the length guard. -/
def tier2 (root : Elem) : Option String :=
  ((tier2Tags.flatMap (fun t => (descendants root).filter (fun e => e.tag == t))).find?
    (fun e => guardLen (pyStrip (get_text (some e))))).map
    (fun e => pyStrip (get_text (some e)))

def tier3Containers : List String :=
  ["book", "document", "article", "chapter", "section"]

/-- Tier 3: container-major scan; `elem.iter()` also yields `elem` itself. -/
def tier3 (root : Elem) : Option String :=
  ((tier3Containers.flatMap (fun ct =>
      ((iterAll root).filter (fun e => pyLower (clean_tag true e.tag) == ct)).flatMap
        (fun e => (iterAll e).filter (fun c =>
          ["title", "name"].contains (pyLower (clean_tag true c.tag)))))).find?
    (fun c => guardLen (pyStrip (get_text (some c))))).map
    (fun c => pyStrip (get_text (some c)))

/-- Python `str.title()` (ASCII): uppercase an alphabetic run's first letter,
lowercase the rest. -/
def pyTitle (s : String) : String :=
  ⟨((s.data.foldl (fun (acc : List Char × Bool) c =>
      if c.isAlpha then
        ((if acc.snd then c.toLower else c.toUpper) :: acc.fst, true)
      else (c :: acc.fst, false)) ([], false)).fst).reverse⟩

/-- Python `s.replace(a, b)` for single-character patterns. -/
def replaceChar (a b : Char) (s : String) : String :=
  ⟨s.data.map (fun c => if c == a then b else c)⟩

/-- The four-tier title inference of `convert_file`. -/
def infer_title (root : Elem) : String :=
  match tier1 root with
  | some t => t
  | none =>
  match tier2 root with
  | some t => t
  | none =>
  match tier3 root with
  | some t => t
  | none => pyTitle (replaceChar '-' ' ' (replaceChar '_' ' ' (clean_tag true root.tag)))

/-! ## Counting sentences by identity (for the paragraph double-render guard) -/

/-- How many elements of `l` have object identity `n`. -/
def countEid (n : Nat) (l : List Elem) : Nat :=
  l.countP (fun t => t.eid == n)

/-! ## Concrete elements used by the witnesses and counterexamples -/

/-- An unregistered, pattern-free element `<foo>X</foo>`. -/
def exFoo : Elem := .mk 3 "foo" [] (some "X") [] none

/-- An unregistered element `<ItemTitle>Hi</ItemTitle>` whose tag contains
both `Title` (rule 1) and `Item` (rule 3). -/
def exItemTitle : Elem := .mk 2 "ItemTitle" [] (some "Hi") [] none

/-- `<subtitle>X</subtitle>`: lowercase `title` inside the tag. -/
def exSubtitle : Elem := .mk 10 "subtitle" [] (some "X") [] none

/-- `<NoteText>N</NoteText>`: unregistered, contains `Text` (rule 2). -/
def exNoteText : Elem := .mk 11 "NoteText" [] (some "N") [] none

/-- `<MyList>L</MyList>`: unregistered, contains `List` (rule 3). -/
def exMyList : Elem := .mk 12 "MyList" [] (some "L") [] none

/-- `<MyTable/>`: unregistered, contains `Table` (rule 4). -/
def exMyTable : Elem := .mk 13 "MyTable" [] none [] none

/-- `<Sentence>  </Sentence>`: whitespace-only sentence. -/
def exEmptySentence : Elem := .mk 1 "Sentence" [] (some "  ") [] none

/-- The nested sentence `<Sentence>A</Sentence>` of the paragraph example. -/
def exSentA : Elem := .mk 2 "Sentence" [] (some "A") [] none

/-- The direct-child sentence `<Sentence>B</Sentence>` of the paragraph
example. -/
def exSentB : Elem := .mk 3 "Sentence" [] (some "B") [] none

/-- The spec's paragraph example:
`<Paragraph><ParagraphSentence><Sentence>A</Sentence></ParagraphSentence><Sentence>B</Sentence></Paragraph>`. -/
def exParagraph : Elem :=
  .mk 0 "Paragraph" [] none
    [.mk 1 "ParagraphSentence" [] none [exSentA] none, exSentB] none

/-- A table column whose only content is a nested non-`Sentence` child with
text `X`. -/
def exColFoo : Elem := .mk 4 "TableColumn" [] none [exFoo] none

/-- A table column with a direct `Sentence` child. -/
def exColSent : Elem :=
  .mk 5 "TableColumn" [] none [.mk 6 "Sentence" [] (some "S") [] none] none

/-- A table column with no children and plain text. -/
def exColText : Elem := .mk 7 "TableColumn" [] (some "T") [] none

/-- `<doc><title>name</title></doc>`: a placeholder-word title. -/
def exTitleName : Elem :=
  .mk 0 "doc" [] none [.mk 1 "title" [] (some "name") [] none] none

/-- An element with whitespace-only own text and a child with text `a`. -/
def exWsText : Elem :=
  .mk 0 "a" [] (some "  ") [.mk 1 "b" [] (some "a") [] none] none

/-- A `Document` element with a renderable child. -/
def exDocument : Elem :=
  .mk 0 "Document" [] none [.mk 1 "DocumentTitle" [] (some "T") [] none] none

/-- An element whose only content is whitespace-only own text. -/
def exWsOnly : Elem := .mk 9 "w" [] (some " ") [] none

/-! ## The amended reading of the text-extraction contract (for C8) -/

/-- The raw (untrimmed) fragments `get_text` collects, in order: the
element's own text when non-empty, then per direct child its text when
non-empty and its tail when non-empty. -/
def rawFragments (e : Elem) : List String :=
  (if optTruthy e.text then [optStr e.text] else []) ++
  e.children.flatMap (fun c =>
    (if optTruthy c.text then [optStr c.text] else []) ++
    (if optTruthy c.tail then [optStr c.tail] else []))

/-- The amended C8 contract, stated in the amended claim's words: every raw
non-empty fragment is kept — trimmed, possibly down to the empty string —
and the trimmed fragments are joined by single spaces. -/
def get_text_amended : Option Elem → String
  | none => ""
  | some e => joinSep " " ((rawFragments e).map pyStrip)

/-! ## C1: unregistered tags resolve to the default processor -/

/-- C1: for every tag not present in the registry, `get_processor` returns
the default processor (never a null handler, never a failure), and
dispatching such an element is exactly an invocation of the default
processor, which always produces a markup string. -/
theorem c1_unregistered_resolves_default
    (R : Registry) (hp : Bool) (f : Nat) (s : Stats) (e : Elem)
    (h : ∀ q ∈ R, q.fst ≠ clean_tag true e.tag) :
    get_processor R (clean_tag true e.tag) = .fallback ∧
    run R hp (f+1) s (.elem e) = run R hp f (bump s (clean_tag true e.tag)) (.dflt e) := by
  have hf : R.find? (fun q => q.fst == clean_tag true e.tag) = none := by
    apply List.find?_eq_none.mpr
    intro q hq
    simpa using h q hq
  refine ⟨by simp [get_processor, hf], ?_⟩
  simp [run, get_processor, hf]

/-- Witness for C1 at `<foo>X</foo>` against the default registry. -/
theorem c1_unregistered_resolves_default_witness :
    (∀ q ∈ get_all_processors, q.fst ≠ clean_tag true exFoo.tag) ∧
    (get_processor get_all_processors (clean_tag true exFoo.tag) = .fallback ∧
     run get_all_processors true 5 [] (.elem exFoo) =
       run get_all_processors true 4 (bump [] (clean_tag true exFoo.tag)) (.dflt exFoo)) :=
  ⟨by decide, c1_unregistered_resolves_default get_all_processors true 4 [] exFoo (by decide)⟩

/-! ## C2: rule 1 wins for tags containing `Title` or `Caption` -/

/-- C2: an unregistered element whose cleaned tag contains `Title` or
`Caption` (case-sensitively) dispatches to the Title/Caption rule — a `div`
classed with the lowercase tag around the escaped extracted text — no matter
which other rule keywords (such as `Item`) the tag also contains. -/
theorem c2_title_caption_rule_first
    (R : Registry) (hp : Bool) (f : Nat) (s : Stats) (e : Elem)
    (hreg : ∀ q ∈ R, q.fst ≠ clean_tag true e.tag)
    (hmatch : strContains (clean_tag true e.tag) "Title" = true ∨
              strContains (clean_tag true e.tag) "Caption" = true) :
    run R hp (f+2) s (.elem e) =
      ("<div class=\"" ++ pyLower (clean_tag true e.tag) ++ "\">"
        ++ escape_html (get_text (some e)) ++ "</div>",
       bump s (clean_tag true e.tag)) := by
  have hf : R.find? (fun q => q.fst == clean_tag true e.tag) = none := by
    apply List.find?_eq_none.mpr
    intro q hq
    simpa using hreg q hq
  have hstep : run R hp (f+2) s (.elem e) =
      run R hp (f+1) (bump s (clean_tag true e.tag)) (.dflt e) := by
    simp [run, get_processor, hf]
  rw [hstep]
  rcases hmatch with h | h <;> simp [run, h]

/-- Witness for C2 at `<ItemTitle>Hi</ItemTitle>` (whose tag also contains
`Item`), against the default registry. -/
theorem c2_title_caption_rule_first_witness :
    (∀ q ∈ get_all_processors, q.fst ≠ clean_tag true exItemTitle.tag) ∧
    strContains (clean_tag true exItemTitle.tag) "Title" = true ∧
    strContains (clean_tag true exItemTitle.tag) "Item" = true ∧
    run get_all_processors true 4 [] (.elem exItemTitle) =
      ("<div class=\"" ++ pyLower (clean_tag true exItemTitle.tag) ++ "\">"
        ++ escape_html (get_text (some exItemTitle)) ++ "</div>",
       bump [] (clean_tag true exItemTitle.tag)) :=
  ⟨by decide, by decide, by decide,
   c2_title_caption_rule_first get_all_processors true 2 [] exItemTitle
     (by decide) (Or.inl (by decide))⟩

/-! ## C3: the substring match is case-sensitive, not case-insensitive -/

/-- C3 counterexample: the claim says matching is case-insensitive, so a tag
`subtitle` would take the Title/Caption rule and render
`<div class="subtitle">X</div>`; the code's `'Title' in tag` test is
case-sensitive, so `<subtitle>X</subtitle>` falls through to the generic
container rule and renders `<div class="subtitle"></div>` instead. -/
theorem c3_case_insensitive_counterexample :
    (run get_all_processors true 5 [] (.elem exSubtitle)).fst
      = "<div class=\"subtitle\"></div>" ∧
    (run get_all_processors true 5 [] (.elem exSubtitle)).fst
      ≠ "<div class=\"subtitle\">X</div>" := by
  constructor
  · decide
  · decide

/-- C3 amended: the default processor selects its rule by CASE-SENSITIVE
substring matching on the cleaned tag, in priority order — rule 1 (`div`
with escaped text) exactly when `Title` or `Caption` occurs, else rule 2
(`span`) exactly when `Sentence` or `Text` occurs, else rule 3 (`li`)
exactly when `Item` or `List` occurs, else rule 4 (table-shape inference)
exactly when `Table` occurs, else the generic container rule whose body is
the recursive dispatch of the children; a tag such as `subtitle` (lowercase
`title`) matches no keyword and takes the generic rule. -/
theorem c3_case_sensitive_match
    (R : Registry) (hp : Bool) (f : Nat) (s : Stats) (e : Elem)
    (hreg : ∀ q ∈ R, q.fst ≠ clean_tag true e.tag) :
    ((strContains (clean_tag true e.tag) "Title" = true ∨
      strContains (clean_tag true e.tag) "Caption" = true) →
      run R hp (f+2) s (.elem e) =
        ("<div class=\"" ++ pyLower (clean_tag true e.tag) ++ "\">"
          ++ escape_html (get_text (some e)) ++ "</div>",
         bump s (clean_tag true e.tag))) ∧
    (strContains (clean_tag true e.tag) "Title" = false →
     strContains (clean_tag true e.tag) "Caption" = false →
     (strContains (clean_tag true e.tag) "Sentence" = true ∨
      strContains (clean_tag true e.tag) "Text" = true) →
      run R hp (f+2) s (.elem e) =
        ("<span class=\"" ++ pyLower (clean_tag true e.tag) ++ "\">"
          ++ escape_html (get_text (some e)) ++ "</span>",
         bump s (clean_tag true e.tag))) ∧
    (strContains (clean_tag true e.tag) "Title" = false →
     strContains (clean_tag true e.tag) "Caption" = false →
     strContains (clean_tag true e.tag) "Sentence" = false →
     strContains (clean_tag true e.tag) "Text" = false →
     (strContains (clean_tag true e.tag) "Item" = true ∨
      strContains (clean_tag true e.tag) "List" = true) →
      run R hp (f+2) s (.elem e) =
        ("<li class=\"" ++ pyLower (clean_tag true e.tag) ++ "\">"
          ++ escape_html (get_text (some e)) ++ "</li>",
         bump s (clean_tag true e.tag))) ∧
    (strContains (clean_tag true e.tag) "Title" = false →
     strContains (clean_tag true e.tag) "Caption" = false →
     strContains (clean_tag true e.tag) "Sentence" = false →
     strContains (clean_tag true e.tag) "Text" = false →
     strContains (clean_tag true e.tag) "Item" = false →
     strContains (clean_tag true e.tag) "List" = false →
     strContains (clean_tag true e.tag) "Table" = true →
      run R hp (f+2) s (.elem e) =
        (process_table_like e, bump s (clean_tag true e.tag))) ∧
    (strContains (clean_tag true e.tag) "Title" = false →
     strContains (clean_tag true e.tag) "Caption" = false →
     strContains (clean_tag true e.tag) "Sentence" = false →
     strContains (clean_tag true e.tag) "Text" = false →
     strContains (clean_tag true e.tag) "Item" = false →
     strContains (clean_tag true e.tag) "List" = false →
     strContains (clean_tag true e.tag) "Table" = false →
      run R hp (f+2) s (.elem e) =
        ("<div class=\"" ++ pyLower (clean_tag true e.tag) ++ "\">"
          ++ (run R hp f (bump s (clean_tag true e.tag)) (.childrenOf e)).fst ++ "</div>",
         (run R hp f (bump s (clean_tag true e.tag)) (.childrenOf e)).snd)) := by
  have hf : R.find? (fun q => q.fst == clean_tag true e.tag) = none := by
    apply List.find?_eq_none.mpr
    intro q hq
    simpa using hreg q hq
  have hstep : run R hp (f+2) s (.elem e) =
      run R hp (f+1) (bump s (clean_tag true e.tag)) (.dflt e) := by
    simp [run, get_processor, hf]
  refine ⟨?_, ?_, ?_, ?_, ?_⟩
  · intro hm
    rw [hstep]
    rcases hm with h | h <;> simp [run, h]
  · intro h1 h2 hm
    rw [hstep]
    rcases hm with h | h <;> simp [run, h1, h2, h]
  · intro h1 h2 h3 h4 hm
    rw [hstep]
    rcases hm with h | h <;> simp [run, h1, h2, h3, h4, h]
  · intro h1 h2 h3 h4 h5 h6 h7
    rw [hstep]
    simp [run, h1, h2, h3, h4, h5, h6, h7]
  · intro h1 h2 h3 h4 h5 h6 h7
    rw [hstep]
    simp [run, h1, h2, h3, h4, h5, h6, h7]

/-- Witness for the amended C3: rule 1 at `<ItemTitle>Hi</ItemTitle>`,
rule 2 at `<NoteText>N</NoteText>`, rule 3 at `<MyList>L</MyList>`, rule 4
at `<MyTable/>`, and the generic container rule at `<subtitle>X</subtitle>`,
all against the default registry. -/
theorem c3_case_sensitive_match_witness :
    run get_all_processors true 4 [] (.elem exItemTitle) =
      ("<div class=\"" ++ pyLower (clean_tag true exItemTitle.tag) ++ "\">"
        ++ escape_html (get_text (some exItemTitle)) ++ "</div>",
       bump [] (clean_tag true exItemTitle.tag)) ∧
    run get_all_processors true 4 [] (.elem exNoteText) =
      ("<span class=\"" ++ pyLower (clean_tag true exNoteText.tag) ++ "\">"
        ++ escape_html (get_text (some exNoteText)) ++ "</span>",
       bump [] (clean_tag true exNoteText.tag)) ∧
    run get_all_processors true 4 [] (.elem exMyList) =
      ("<li class=\"" ++ pyLower (clean_tag true exMyList.tag) ++ "\">"
        ++ escape_html (get_text (some exMyList)) ++ "</li>",
       bump [] (clean_tag true exMyList.tag)) ∧
    run get_all_processors true 4 [] (.elem exMyTable) =
      (process_table_like exMyTable, bump [] (clean_tag true exMyTable.tag)) ∧
    run get_all_processors true 5 [] (.elem exSubtitle) =
      ("<div class=\"" ++ pyLower (clean_tag true exSubtitle.tag) ++ "\">"
        ++ (run get_all_processors true 3
              (bump [] (clean_tag true exSubtitle.tag)) (.childrenOf exSubtitle)).fst ++ "</div>",
       (run get_all_processors true 3
          (bump [] (clean_tag true exSubtitle.tag)) (.childrenOf exSubtitle)).snd) :=
  ⟨(c3_case_sensitive_match get_all_processors true 2 [] exItemTitle (by decide)).1
     (Or.inl (by decide)),
   (c3_case_sensitive_match get_all_processors true 2 [] exNoteText (by decide)).2.1
     (by decide) (by decide) (Or.inr (by decide)),
   (c3_case_sensitive_match get_all_processors true 2 [] exMyList (by decide)).2.2.1
     (by decide) (by decide) (by decide) (by decide) (Or.inr (by decide)),
   (c3_case_sensitive_match get_all_processors true 2 [] exMyTable (by decide)).2.2.2.1
     (by decide) (by decide) (by decide) (by decide) (by decide) (by decide) (by decide),
   (c3_case_sensitive_match get_all_processors true 3 [] exSubtitle (by decide)).2.2.2.2
     (by decide) (by decide) (by decide) (by decide) (by decide) (by decide) (by decide)⟩

/-! ## C4: empty sentences render as one non-breaking space -/

/-- C4: a `Sentence` element with no `Ruby` children, no `Sub` children and
empty or whitespace-only extracted text renders (through dispatch on the
default registry) to a span containing exactly one non-breaking space. -/
theorem c4_empty_sentence_nbsp
    (hp : Bool) (f : Nat) (s : Stats) (e : Elem)
    (htag : e.tag = "Sentence") (hruby : ch "Ruby" e = []) (hsub : ch "Sub" e = [])
    (htext : pyStrip (get_text (some e)) = "") :
    run get_all_processors hp (f+2) s (.elem e) =
      (sentenceSpanOpen ++ "\u00A0" ++ "</span>", bump s "Sentence") := by
  have hclean : clean_tag true e.tag = "Sentence" := by rw [htag]; decide
  have hnb : escape_html "\u00A0" = "\u00A0" := by decide
  simp only [run, hclean]
  have hget : get_processor get_all_processors "Sentence" = .named .sentence := by decide
  rw [hget]
  simp only [run, process_sentence, hruby, hsub]
  simp [htext, hnb]

/-- Witness for C4 at `<Sentence>  </Sentence>`. -/
theorem c4_empty_sentence_nbsp_witness :
    exEmptySentence.tag = "Sentence" ∧ ch "Ruby" exEmptySentence = [] ∧
    ch "Sub" exEmptySentence = [] ∧ pyStrip (get_text (some exEmptySentence)) = "" ∧
    run get_all_processors true 4 [] (.elem exEmptySentence) =
      (sentenceSpanOpen ++ "\u00A0" ++ "</span>", bump [] "Sentence") :=
  ⟨rfl, rfl, rfl, by decide,
   c4_empty_sentence_nbsp true 2 [] exEmptySentence rfl rfl rfl (by decide)⟩

/-! ## C10: a Document with no processor in context renders nothing -/

/-- C10: dispatching an element tagged `Document` (with the `Document`
processor registered) in a context that carries no `'processor'` entry
returns the empty string — the children are not rendered at all. -/
theorem c10_document_without_processor_empty
    (R : Registry) (f : Nat) (s : Stats) (e : Elem)
    (htag : e.tag = "Document")
    (hreg : get_processor R "Document" = .named .document) :
    run R false (f+2) s (.elem e) = ("", bump s "Document") := by
  have hclean : clean_tag true e.tag = "Document" := by rw [htag]; decide
  simp only [run, hclean]
  rw [hreg]
  simp [run]

/-- Witness for C10 at a `Document` with a renderable `DocumentTitle` child,
against the default registry. -/
theorem c10_document_without_processor_empty_witness :
    exDocument.tag = "Document" ∧
    get_processor get_all_processors "Document" = .named .document ∧
    run get_all_processors false 4 [] (.elem exDocument) = ("", bump [] "Document") :=
  ⟨rfl, by decide,
   c10_document_without_processor_empty get_all_processors 2 [] exDocument rfl (by decide)⟩

/-! ## C5: the paragraph double-render guard -/

theorem countEid_append (n : Nat) (l₁ l₂ : List Elem) :
    countEid n (l₁ ++ l₂) = countEid n l₁ + countEid n l₂ := by
  simp [countEid, List.countP_append]

theorem countEid_cons (n : Nat) (c : Elem) (l : List Elem) :
    countEid n (c :: l) = countEid n l + (if c.eid == n then 1 else 0) := by
  simp [countEid, List.countP_cons]

/-- Every list is a sublist of its descendant expansion. -/
theorem sublist_descList (l : List Elem) : l.Sublist (descList l) := by
  induction l with
  | nil => simp [descList]
  | cons c cs ih =>
    rw [descList]
    exact List.Sublist.cons₂ c (ih.trans (List.sublist_append_right _ _))

theorem countEid_children_le_descendants (n : Nat) (e : Elem) :
    countEid n e.children ≤ countEid n (descendants e) := by
  have hd : descendants e = descList e.children := by cases e; rfl
  rw [hd]
  exact (sublist_descList e.children).countP_le _

/-- Counting by identity: the nested `ParagraphSentence/Sentence` nodes plus
the direct `Sentence` children never outnumber the occurrences among all
descendants. -/
theorem countEid_nested_direct_le (n : Nat) (l : List Elem) :
    countEid n ((l.filter (fun c => c.tag == "ParagraphSentence")).flatMap
        (fun c => c.children.filter (fun d => d.tag == "Sentence")))
      + countEid n (l.filter (fun c => c.tag == "Sentence"))
      ≤ countEid n (descList l) := by
  induction l with
  | nil => simp [descList, countEid]
  | cons c cs ih =>
    have hcc : countEid n (c.children.filter (fun d => d.tag == "Sentence"))
        ≤ countEid n (descendants c) :=
      le_trans ((List.filter_sublist _).countP_le _)
        (countEid_children_le_descendants n c)
    have hdl : countEid n (descList (c :: cs))
        = countEid n (descList cs) + countEid n (descendants c)
          + (if c.eid == n then 1 else 0) := by
      rw [descList, countEid_cons, countEid_append]
      omega
    by_cases hps : (c.tag == "ParagraphSentence") = true
    · have hsent : (c.tag == "Sentence") = false := by
        rw [beq_iff_eq] at hps
        simp [hps]
      have e1 : (c :: cs).filter (fun c => c.tag == "ParagraphSentence")
          = c :: cs.filter (fun c => c.tag == "ParagraphSentence") := by
        simp [List.filter_cons, hps]
      have e2 : (c :: cs).filter (fun d => d.tag == "Sentence")
          = cs.filter (fun d => d.tag == "Sentence") := by
        simp [List.filter_cons, hsent]
      rw [e1, e2, List.flatMap_cons, countEid_append, hdl]
      omega
    · rw [Bool.not_eq_true] at hps
      have e1 : (c :: cs).filter (fun c => c.tag == "ParagraphSentence")
          = cs.filter (fun c => c.tag == "ParagraphSentence") := by
        simp [List.filter_cons, hps]
      by_cases hsent : (c.tag == "Sentence") = true
      · have e2 : (c :: cs).filter (fun d => d.tag == "Sentence")
            = c :: cs.filter (fun d => d.tag == "Sentence") := by
          simp [List.filter_cons, hsent]
        rw [e1, e2, countEid_cons, hdl]
        omega
      · rw [Bool.not_eq_true] at hsent
        have e2 : (c :: cs).filter (fun d => d.tag == "Sentence")
            = cs.filter (fun d => d.tag == "Sentence") := by
          simp [List.filter_cons, hsent]
        rw [e1, e2, hdl]
        omega

theorem countEid_paragraph_le (n : Nat) (e : Elem) :
    countEid n (paragraph_nested e) + countEid n (ch "Sentence" e)
      ≤ countEid n (descendants e) := by
  have hn : paragraph_nested e
      = (e.children.filter (fun c => c.tag == "ParagraphSentence")).flatMap
          (fun c => c.children.filter (fun d => d.tag == "Sentence")) := rfl
  have hs : ch "Sentence" e = e.children.filter (fun d => d.tag == "Sentence") := rfl
  have hd : descendants e = descList e.children := by cases e; rfl
  rw [hn, hs, hd]
  exact countEid_nested_direct_le n e.children

theorem count_map_eid (n : Nat) (l : List Elem) :
    (l.map Elem.eid).count n = countEid n l := by
  induction l with
  | nil => rfl
  | cons c cs ih => simp [List.count_cons, countEid_cons, ih]

/-- In an alias-free tree (pairwise distinct identities) no identity occurs
twice among the descendants. -/
theorem countEid_descendants_le_one (e : Elem) (h : (eidsOf e).Nodup) (n : Nat) :
    countEid n (descendants e) ≤ 1 := by
  have hcount : (eidsOf e).count n ≤ 1 := List.nodup_iff_count_le_one.mp h n
  rw [eidsOf, count_map_eid, iterAll, countEid_cons] at hcount
  omega

/-- C5: in an alias-free paragraph tree, the sentence nodes
`process_paragraph` renders — the nested `ParagraphSentence/Sentence` nodes
followed by the direct `Sentence` children that survive the identity-based
double-render guard — contain every nested sentence exactly once, every
direct `Sentence` child not reachable via the nested path exactly once, and
no sentence node twice. -/
theorem c5_paragraph_no_double_render (e : Elem) (h : (eidsOf e).Nodup) :
    (∀ sn ∈ paragraph_nested e, countEid sn.eid (paragraph_rendered e) = 1) ∧
    (∀ sn ∈ ch "Sentence" e, memEid sn (paragraph_nested e) = false →
      countEid sn.eid (paragraph_rendered e) = 1) ∧
    (∀ n, countEid n (paragraph_rendered e) ≤ 1) := by
  have htot : ∀ n, countEid n (paragraph_rendered e) ≤ 1 := by
    intro n
    have hextra : countEid n (paragraph_direct_extra e) ≤ countEid n (ch "Sentence" e) :=
      (List.filter_sublist _).countP_le _
    have hle := countEid_paragraph_le n e
    have hone := countEid_descendants_le_one e h n
    rw [paragraph_rendered, countEid_append]
    omega
  refine ⟨?_, ?_, htot⟩
  · intro sn hsn
    have hpos : 0 < countEid sn.eid (paragraph_nested e) :=
      List.countP_pos_iff.mpr ⟨sn, hsn, by simp⟩
    have := htot sn.eid
    rw [paragraph_rendered, countEid_append] at this ⊢
    omega
  · intro sn hsn hmem
    have hpos : 0 < countEid sn.eid (paragraph_direct_extra e) := by
      refine List.countP_pos_iff.mpr ⟨sn, ?_, by simp⟩
      exact List.mem_filter.mpr ⟨hsn, by simp [hmem]⟩
    have := htot sn.eid
    rw [paragraph_rendered, countEid_append] at this ⊢
    omega

set_option maxRecDepth 10000 in
/-- Witness for C5 at the spec's example paragraph: sentence `A` (the nested
node, identity 2) is rendered once, sentence `B` (the direct child, identity
3) once — and the produced markup indeed contains the `A` span once followed
by the `B` span once. -/
theorem c5_paragraph_no_double_render_witness :
    (eidsOf exParagraph).Nodup ∧
    countEid exSentA.eid (paragraph_rendered exParagraph) = 1 ∧
    countEid exSentB.eid (paragraph_rendered exParagraph) = 1 ∧
    (run get_all_processors true 8 [] (.proc .paragraph exParagraph)).fst
      = "<div class=\"paragraph\" style=\"margin: 15px 0; padding-left: 20px;\">"
        ++ (sentenceSpanOpen ++ "A" ++ "</span>")
        ++ (sentenceSpanOpen ++ "B" ++ "</span>") ++ "</div>" :=
  ⟨by decide,
   (c5_paragraph_no_double_render exParagraph (by decide)).1 exSentA
     (by
       simp [paragraph_nested, path2, ch, exParagraph, exSentA]
       exact ⟨_, ⟨List.mem_cons_self _ _, rfl⟩, List.mem_cons_self _ _, rfl⟩),
   (c5_paragraph_no_double_render exParagraph (by decide)).2.1 exSentB
     (by
       simp [ch, exParagraph, exSentB]
       exact ⟨List.mem_cons_of_mem _ (List.mem_cons_self _ _), rfl⟩)
     (by decide),
   by decide⟩

/-! ## C9: the advisory visit counter never affects the markup -/

/-- Master lemma: the string component of `run` does not depend on the
incoming `element_stats` value (the counter is threaded through but never
read by any rendering decision). -/
theorem run_fst_congr (R : Registry) (hp : Bool) :
    ∀ (f : Nat) (c : Call) (s₁ s₂ : Stats),
      (run R hp f s₁ c).fst = (run R hp f s₂ c).fst := by
  intro f
  induction f with
  | zero => intro c s₁ s₂; rfl
  | succ f ih =>
    intro c s₁ s₂
    have key : ∀ (c : Call) (s : Stats),
        (run R hp f s c).fst = (run R hp f [] c).fst := fun c s => ih c s []
    cases c with
    | elem e =>
      simp only [run]
      cases get_processor R (clean_tag true e.tag) <;> simp [key, apply_ite (Prod.fst (α := String) (β := Stats))]
    | proc p e =>
      cases p with
      | document => simp [run, key, apply_ite (Prod.fst (α := String) (β := Stats))]
      | documentTitle => simp [run]
      | enactStatement => simp [run]
      | toc => simp [run]
      | chapter => simp [run, key, apply_ite (Prod.fst (α := String) (β := Stats))]
      | sect => simp [run, key, apply_ite (Prod.fst (α := String) (β := Stats))]
      | subsection => simp [run, key, apply_ite (Prod.fst (α := String) (β := Stats))]
      | article => simp [run, key, apply_ite (Prod.fst (α := String) (β := Stats))]
      | paragraph => simp [run, key, apply_ite (Prod.fst (α := String) (β := Stats))]
      | sentence => simp [run]
      | item => simp [run, key, apply_ite (Prod.fst (α := String) (β := Stats))]
      | subitem1 => simp [run, key, apply_ite (Prod.fst (α := String) (β := Stats))]
      | tableStruct => cases hf : fnd "Table" e <;> simp [run, hf, key, apply_ite (Prod.fst (α := String) (β := Stats))]
      | supplProvision => simp [run, key, apply_ite (Prod.fst (α := String) (β := Stats))]
      | appdxTable =>
        cases hts : fnd "TableStruct" e with
        | some ts =>
          simp [run, hts, key, apply_ite (Prod.fst (α := String) (β := Stats))]
        | none =>
          cases htb : fnd "Table" e <;>
            simp [run, hts, htb, key, apply_ite (Prod.fst (α := String) (β := Stats))]
    | dflt e => simp [run, key, apply_ite (Prod.fst (α := String) (β := Stats))]
    | childrenOf e => simp [run, key, apply_ite (Prod.fst (α := String) (β := Stats))]
    | dispatchList es =>
      cases es with
      | nil => simp [run]
      | cons c cs =>
        simp only [run]
        cases get_processor R (clean_tag true c.tag) <;> simp [key, apply_ite (Prod.fst (α := String) (β := Stats))]
    | each p es =>
      cases es <;> simp [run, key, apply_ite (Prod.fst (α := String) (β := Stats))]
    | wrapEach pre post p es =>
      cases es <;> simp [run, key, apply_ite (Prod.fst (α := String) (β := Stats))]
    | supplParas es =>
      cases es <;> simp [run, key, apply_ite (Prod.fst (α := String) (β := Stats))]
    | itemCols es => cases es <;> simp [run, key, apply_ite (Prod.fst (α := String) (β := Stats))]
    | tableRows es => cases es <;> simp [run, key, apply_ite (Prod.fst (α := String) (β := Stats))]
    | tableCols es => cases es <;> simp [run, key, apply_ite (Prod.fst (α := String) (β := Stats))]
    | colContent e =>
      simp [run, key, apply_ite (Prod.fst (α := String) (β := Stats))]
    | subitem2s es => cases es <;> simp [run, key, apply_ite (Prod.fst (α := String) (β := Stats))]

/-- C9: rendering the same element twice through `process_element` with the
same registered processors and equivalent context yields identical markup —
the advisory `element_stats` counter, though mutated by each call, never
affects the produced output (the markup is the same for any two starting
counter values). -/
theorem c9_markup_stats_independent
    (R : Registry) (hp : Bool) (f : Nat) (s : Stats) (e : Elem) :
    ((process_element R hp f s e).fst =
      (process_element R hp f (process_element R hp f s e).snd e).fst) ∧
    (∀ s₁ s₂ : Stats,
      (process_element R hp f s₁ e).fst = (process_element R hp f s₂ e).fst) :=
  ⟨run_fst_congr R hp f (.elem e) s (process_element R hp f s e).snd,
   fun s₁ s₂ => run_fst_congr R hp f (.elem e) s₁ s₂⟩

/-! ## C8: text extraction keeps stripped-to-empty fragments -/

/-- C8 counterexample: the claim says exactly the non-empty trimmed
fragments are joined — for `<a>  <b>a</b></a>` that would give `"a"` — but
`get_text` also keeps the whitespace-only own text as an empty fragment and
returns `" a"`. -/
theorem c8_fragment_counterexample :
    get_text (some exWsText) = " a" ∧ " a" ≠ "a" := by
  constructor
  · decide
  · decide

/-- Helper: the `foldr` of `get_text` is the trimmed flat map of the raw
child fragments. -/
theorem foldr_fragments_eq (l : List Elem) :
    l.foldr (fun c acc =>
        (if optTruthy c.text then [pyStrip (optStr c.text)] else []) ++
        (if optTruthy c.tail then [pyStrip (optStr c.tail)] else []) ++ acc) [] =
      (l.flatMap (fun c =>
        (if optTruthy c.text then [optStr c.text] else []) ++
        (if optTruthy c.tail then [optStr c.tail] else []))).map pyStrip := by
  induction l with
  | nil => simp
  | cons c cs ih =>
    rw [List.foldr_cons, ih]
    simp [apply_ite (List.map pyStrip)]

/-- C8 amended: `get_text` joins the trimmed versions of all raw non-empty
fragments (an untrimmed-non-empty but whitespace-only fragment is kept as an
empty fragment and contributes a separating space); an absent element and an
element with only whitespace text (and no children) still yield `""`. -/
theorem c8_amended_fragments :
    (∀ oe, get_text oe = get_text_amended oe) ∧
    (∀ e : Elem, e.children = [] → pyStrip (optStr e.text) = "" →
      get_text (some e) = "") := by
  constructor
  · intro oe
    cases oe with
    | none => rfl
    | some e =>
      simp only [get_text, get_text_amended, rawFragments]
      rw [foldr_fragments_eq]
      simp [apply_ite (List.map pyStrip)]
  · intro e h1 h2
    cases he : optTruthy e.text with
    | true => simp [get_text, h1, he, h2, joinSep]
    | false => simp [get_text, h1, he, joinSep]

/-- Witness for the amended C8: the general equation at `exWsText`, and the
whitespace-only edge case at `exWsOnly`. -/
theorem c8_amended_fragments_witness :
    get_text (some exWsText) = get_text_amended (some exWsText) ∧
    (exWsOnly.children = [] ∧ pyStrip (optStr exWsOnly.text) = "" ∧
     get_text (some exWsOnly) = "") :=
  ⟨(c8_amended_fragments).1 (some exWsText),
   rfl, by decide, (c8_amended_fragments).2 exWsOnly rfl (by decide)⟩

/-! ## C7: tiers 2 and 3 apply only the length guard -/

/-- C7 counterexample: for `<doc><title>name</title></doc>` tier 1 rejects
the bare placeholder word `name`, but tier 2 — which the claim says applies
the same non-placeholder guard — accepts it, and the inferred title is
`name`. -/
theorem c7_placeholder_counterexample :
    tier1 exTitleName = none ∧ tier2 exTitleName = some "name" ∧
    infer_title exTitleName = "name" ∧
    placeholders.contains (pyLower "name") = true := by
  refine ⟨by decide, by decide, by decide, by decide⟩

/-- C7 amended: when tier 1 finds no candidate, tiers 2 and 3 accept an
element as soon as its trimmed extracted text is non-empty and shorter than
500 characters; the bare-word placeholder guard belongs to tier 1 only, so a
placeholder word is accepted by tier 2 (witnessed by `exTitleName`). -/
theorem c7_tiers_length_guard_only :
    (∀ root t, tier2 root = some t → t ≠ "" ∧ t.length < 500) ∧
    (∀ root t, tier3 root = some t → t ≠ "" ∧ t.length < 500) ∧
    tier2 exTitleName = some "name" := by
  refine ⟨?_, ?_, by decide⟩
  · intro root t h
    unfold tier2 at h
    rcases Option.map_eq_some'.mp h with ⟨e, hfind, hext⟩
    have hp := List.find?_some hfind
    rw [hext] at hp
    simpa [guardLen] using hp
  · intro root t h
    unfold tier3 at h
    rcases Option.map_eq_some'.mp h with ⟨e, hfind, hext⟩
    have hp := List.find?_some hfind
    rw [hext] at hp
    simpa [guardLen] using hp

/-- Witness for the amended C7: tier 2 accepts the placeholder word `name`,
which satisfies only the length guard. -/
theorem c7_tiers_length_guard_only_witness :
    tier2 exTitleName = some "name" ∧ ("name" ≠ "" ∧ "name".length < 500) :=
  ⟨by decide, (c7_tiers_length_guard_only).1 exTitleName "name" (by decide)⟩

/-! ## C6: the three-tier cell fallback -/

/-- C6 counterexample: the claim says a column whose only content is a
nested non-`Sentence` child with text `X` renders `X`; for
`<TableColumn><foo>X</foo></TableColumn>` the children dispatch produces the
non-blank markup `<div class="foo"></div>`, so tier (c) is never reached and
the cell contains no `X` at all (though it is indeed not blank). -/
theorem c6_cell_x_counterexample :
    (run get_all_processors true 6 [] (.colContent exColFoo)).fst
      = "<div class=\"foo\"></div>" ∧
    strContains (run get_all_processors true 6 [] (.colContent exColFoo)).fst "X" = false ∧
    pyStrip (run get_all_processors true 6 [] (.colContent exColFoo)).fst ≠ "" := by
  refine ⟨by decide, by decide, by decide⟩

/-- C6 amended: with a processor in the context, cell content is produced by
the first applicable tier — (a) direct `Sentence` children rendered via the
sentence processor and concatenated, (b) else the children dispatch when its
markup is non-blank, (c) else the escaped extracted text; a column holding
only a nested non-`Sentence` child with text `X` therefore renders a
non-blank cell via tier (b), but that markup contains `X` only when the
child's own rendering emits its text. -/
theorem c6_three_tier_fallback (R : Registry) (f : Nat) (s : Stats) (col : Elem) :
    ((ch "Sentence" col).isEmpty = false →
      run R true (f+1) s (.colContent col) =
        run R true f s (.each .sentence (ch "Sentence" col))) ∧
    ((ch "Sentence" col).isEmpty = true →
      pyStrip (run R true f s (.childrenOf col)).fst ≠ "" →
      run R true (f+1) s (.colContent col) = run R true f s (.childrenOf col)) ∧
    ((ch "Sentence" col).isEmpty = true →
      pyStrip (run R true f s (.childrenOf col)).fst = "" →
      get_text (some col) ≠ "" →
      run R true (f+1) s (.colContent col) =
        (escape_html (get_text (some col)), (run R true f s (.childrenOf col)).snd)) := by
  refine ⟨?_, ?_, ?_⟩
  · intro h
    simp [run, h]
  · intro h hne
    simp [run, h, beq_iff_eq, hne]
  · intro h heq ht
    simp [run, h, beq_iff_eq, heq, ht]

/-- Witness for the amended C6: tier (a) at a column with a `Sentence`
child, tier (b) at `exColFoo` (non-blank children markup, no `X`), tier (c)
at a childless column with text. -/
theorem c6_three_tier_fallback_witness :
    ((ch "Sentence" exColSent).isEmpty = false ∧
      run get_all_processors true 6 [] (.colContent exColSent) =
        run get_all_processors true 5 [] (.each .sentence (ch "Sentence" exColSent))) ∧
    ((ch "Sentence" exColFoo).isEmpty = true ∧
      pyStrip (run get_all_processors true 5 [] (.childrenOf exColFoo)).fst ≠ "" ∧
      run get_all_processors true 6 [] (.colContent exColFoo) =
        run get_all_processors true 5 [] (.childrenOf exColFoo)) ∧
    ((ch "Sentence" exColText).isEmpty = true ∧
      pyStrip (run get_all_processors true 5 [] (.childrenOf exColText)).fst = "" ∧
      get_text (some exColText) ≠ "" ∧
      run get_all_processors true 6 [] (.colContent exColText) =
        (escape_html (get_text (some exColText)),
         (run get_all_processors true 5 [] (.childrenOf exColText)).snd)) :=
  ⟨⟨by decide, (c6_three_tier_fallback get_all_processors 5 [] exColSent).1 (by decide)⟩,
   ⟨by decide, by decide,
    (c6_three_tier_fallback get_all_processors 5 [] exColFoo).2.1 (by decide) (by decide)⟩,
   ⟨by decide, by decide, by decide,
    (c6_three_tier_fallback get_all_processors 5 [] exColText).2.2
      (by decide) (by decide) (by decide)⟩⟩

end Xmlcv
